import Mathlib

/-!
# Verification of the DRB driver-scheduling dashboard core

A shallow embedding of the in-memory entity stores and the derived-view
computations of the dashboard:

* the Driver store (`addDriver`, `updateDriver`, `deleteDriver`, `getDriver`,
  `getDriversByStatus`) from `driverStore`;
* the Route store (`addRoute`, `updateRoute`, `deleteRoute`, `getRoute`,
  `getRoutesByDriver`, `getUnassignedRoutes`) from `routeStore.ts`;
* the Dashboard search/filter projections (`filteredDrivers`,
  `filteredRoutes`);
* the Calendar availability classification (`getDriverAvailability`).

Stores are modelled by explicit state passing: a store state is the list of
entities, and each action is a pure function from the old list (plus the
freshly generated id and the clock reading, where the source calls `uuidv4()`
and `new Date()`) to the new list.  Timestamps and instants are integers
(milliseconds since the epoch); JavaScript `Date` values compare by this
number, and `date-fns` `isSameDay` compares the calendar day, modelled by
flooring division by the number of milliseconds per day.  JavaScript strings
are used through `toLowerCase` and `includes` only; these are modelled on the
underlying character lists.
-/

namespace Drb

/-- The three driver lifecycle statuses: `'available' | 'assigned' | 'on_leave'`. -/
inductive DriverStatus where
  | available
  | assigned
  | on_leave
deriving DecidableEq, Repr

/-- A driver record, from the `Driver` interface: `id`, `name`, `phone`,
`licenseId`, `status`, `createdAt`, `updatedAt` (timestamps as epoch
milliseconds). -/
structure Driver where
  id : String
  name : String
  phone : String
  licenseId : String
  status : DriverStatus
  createdAt : Int
  updatedAt : Int
deriving DecidableEq, Repr

/-- A route record, from the `Route` interface used by `routeStore.ts` and the
pages: `id`, `routeCode`, `origin`, `destination`, `startTime`, `endTime`
(instants, as parsed by `new Date(...)`, in epoch milliseconds),
`assignedDriverId` (optional: `none` models the absent/`undefined` field),
`createdAt`, `updatedAt`. -/
structure Route where
  id : String
  routeCode : String
  origin : String
  destination : String
  startTime : Int
  endTime : Int
  assignedDriverId : Option String
  createdAt : Int
  updatedAt : Int
deriving DecidableEq, Repr

/-! ## Driver store (`driverStore`) -/

/-- The input to `addDriver`: `Omit<Driver, 'id' | 'createdAt' | 'updatedAt'>`. -/
structure DriverInput where
  name : String
  phone : String
  licenseId : String
  status : DriverStatus
deriving DecidableEq, Repr

/-- `addDriver`: spreads the input, assigns a fresh id (from `uuidv4()`) and
the current clock reading for both `createdAt` and `updatedAt` (both
`new Date()` calls happen synchronously inside the one store action, modelled
as the single instant `now`), and appends to the collection. -/
def addDriver (drivers : List Driver) (input : DriverInput) (newId : String)
    (now : Int) : List Driver :=
  drivers ++ [{ id := newId, name := input.name, phone := input.phone,
                licenseId := input.licenseId, status := input.status,
                createdAt := now, updatedAt := now }]

/-- A partial driver update:
`Partial<Omit<Driver, 'id' | 'createdAt' | 'updatedAt'>>`.  A `none` field is
absent from the patch object and therefore left unchanged by the spread
`{ ...driver, ...updates }`. -/
structure DriverPatch where
  name : Option String
  phone : Option String
  licenseId : Option String
  status : Option DriverStatus
deriving DecidableEq, Repr

/-- The merge `{ ...driver, ...updates, updatedAt: new Date() }`. -/
def applyDriverPatch (d : Driver) (p : DriverPatch) (now : Int) : Driver :=
  { d with
    name := p.name.getD d.name
    phone := p.phone.getD d.phone
    licenseId := p.licenseId.getD d.licenseId
    status := p.status.getD d.status
    updatedAt := now }

/-- `updateDriver`: maps over the collection, merging the patch into every
entry whose `id` matches and refreshing its `updatedAt`; entries with any
other id are returned unchanged.  (The trailing `console.log` has no effect on the
store state and is not modelled.) -/
def updateDriver (drivers : List Driver) (id : String) (p : DriverPatch)
    (now : Int) : List Driver :=
  drivers.map fun d => if d.id == id then applyDriverPatch d p now else d

/-- `deleteDriver`: keeps exactly the entries whose `id` differs from the
argument. -/
def deleteDriver (drivers : List Driver) (id : String) : List Driver :=
  drivers.filter fun d => d.id != id

/-- `getDriver`: `drivers.find((driver) => driver.id === id)` — the first
entry with the given id, or `none` (`undefined`). -/
def getDriver (drivers : List Driver) (id : String) : Option Driver :=
  drivers.find? fun d => d.id == id

/-- `getDriversByStatus`: all drivers whose `status` equals the argument, in
collection order. -/
def getDriversByStatus (drivers : List Driver) (s : DriverStatus) : List Driver :=
  drivers.filter fun d => d.status == s

/-! ## Route store (`routeStore.ts`) -/

/-- The input to `addRoute`: `Omit<Route, 'id' | 'createdAt' | 'updatedAt'>`. -/
structure RouteInput where
  routeCode : String
  origin : String
  destination : String
  startTime : Int
  endTime : Int
  assignedDriverId : Option String
deriving DecidableEq, Repr

/-- `addRoute`: mirrors `addDriver` — fresh id, current clock reading for both
timestamps, append. -/
def addRoute (routes : List Route) (input : RouteInput) (newId : String)
    (now : Int) : List Route :=
  routes ++ [{ id := newId, routeCode := input.routeCode, origin := input.origin,
               destination := input.destination, startTime := input.startTime,
               endTime := input.endTime, assignedDriverId := input.assignedDriverId,
               createdAt := now, updatedAt := now }]

/-- A partial route update:
`Partial<Omit<Route, 'id' | 'createdAt' | 'updatedAt'>>`.  For
`assignedDriverId` the outer `Option` distinguishes "field absent from the
patch" from "field present" (whose value is itself optional). -/
structure RoutePatch where
  routeCode : Option String
  origin : Option String
  destination : Option String
  startTime : Option Int
  endTime : Option Int
  assignedDriverId : Option (Option String)
deriving DecidableEq, Repr

/-- The merge `{ ...route, ...updates, updatedAt: new Date() }`. -/
def applyRoutePatch (r : Route) (p : RoutePatch) (now : Int) : Route :=
  { r with
    routeCode := p.routeCode.getD r.routeCode
    origin := p.origin.getD r.origin
    destination := p.destination.getD r.destination
    startTime := p.startTime.getD r.startTime
    endTime := p.endTime.getD r.endTime
    assignedDriverId := p.assignedDriverId.getD r.assignedDriverId
    updatedAt := now }

/-- `updateRoute`: maps over the collection, merging the patch into every entry
whose `id` matches and refreshing its `updatedAt`. -/
def updateRoute (routes : List Route) (id : String) (p : RoutePatch)
    (now : Int) : List Route :=
  routes.map fun r => if r.id == id then applyRoutePatch r p now else r

/-- `deleteRoute`: keeps exactly the entries whose `id` differs from the
argument. -/
def deleteRoute (routes : List Route) (id : String) : List Route :=
  routes.filter fun r => r.id != id

/-- `getRoute`: the first entry with the given id, or `none`. -/
def getRoute (routes : List Route) (id : String) : Option Route :=
  routes.find? fun r => r.id == id

/-- `getRoutesByDriver`: `routes.filter((route) => route.assignedDriverId ===
driverId)`.  An absent (`undefined`) `assignedDriverId` is never strictly
equal to a string, so only `some driverId` matches. -/
def getRoutesByDriver (routes : List Route) (driverId : String) : List Route :=
  routes.filter fun r => r.assignedDriverId == some driverId

/-- JavaScript falsiness of the optional `assignedDriverId` string:
`!route.assignedDriverId` is `true` for `undefined` and for the empty
string. -/
def idFalsy : Option String → Bool
  | none => true
  | some s => s == ""

/-- `getUnassignedRoutes`: `routes.filter((route) => !route.assignedDriverId)`. -/
def getUnassignedRoutes (routes : List Route) : List Route :=
  routes.filter fun r => idFalsy r.assignedDriverId

/-! ## JavaScript string operations used by the Dashboard search

`String.prototype.includes` (contiguous substring containment) and
`String.prototype.toLowerCase` are modelled on the character lists underlying
Lean strings; lower-casing maps `Char.toLower` over the characters. -/

/-- `startsWith needle hay`: `hay` begins with `needle`. -/
def startsWith : List Char → List Char → Bool
  | [], _ => true
  | _ :: _, [] => false
  | a :: as, b :: bs => a == b && startsWith as bs

/-- `includes needle hay`: `needle` occurs contiguously in `hay` — JavaScript
`hay.includes(needle)`. -/
def includes (needle : List Char) : List Char → Bool
  | [] => startsWith needle []
  | c :: t => startsWith needle (c :: t) || includes needle t

/-- JavaScript `s.toLowerCase()`. -/
def jsToLower (s : String) : String :=
  ⟨s.toList.map Char.toLower⟩

/-- JavaScript `hay.includes(needle)` on strings. -/
def jsIncludes (hay needle : String) : Bool :=
  includes needle.toList hay.toList

/-! ## Dashboard projections (`filteredDrivers` / `filteredRoutes`) -/

/-- The driver search predicate from `filteredDrivers`:
`name.toLowerCase().includes(q.toLowerCase()) ||
 licenseId.toLowerCase().includes(q.toLowerCase()) ||
 phone.includes(q)` — note that the `phone` comparison is not lower-cased on
either side. -/
def driverMatchesSearch (q : String) (d : Driver) : Bool :=
  jsIncludes (jsToLower d.name) (jsToLower q) ||
  jsIncludes (jsToLower d.licenseId) (jsToLower q) ||
  jsIncludes d.phone q

/-- The search stage of `filteredDrivers`: `if (driverSearch)` skips the
filter entirely for the (falsy) empty query. -/
def searchDrivers (drivers : List Driver) (q : String) : List Driver :=
  if q == "" then drivers else drivers.filter (driverMatchesSearch q)

/-- The driver status filter choices: `'all' | 'available' | 'assigned' |
'on_leave'`. -/
inductive DriverFilter where
  | all
  | available
  | assigned
  | on_leave
deriving DecidableEq, Repr

/-- The status stage of `filteredDrivers`: the `switch` on the filter. -/
def filterDriversByStatus (drivers : List Driver) : DriverFilter → List Driver
  | .all => drivers
  | .available => drivers.filter fun d => d.status == .available
  | .assigned => drivers.filter fun d => d.status == .assigned
  | .on_leave => drivers.filter fun d => d.status == .on_leave

/-- `filteredDrivers`: the search stage followed by the status stage, in the
source's order. -/
def filteredDrivers (drivers : List Driver) (q : String) (f : DriverFilter) :
    List Driver :=
  filterDriversByStatus (searchDrivers drivers q) f

/-- The route search predicate from `filteredRoutes`:
`routeCode.toLowerCase().includes(q.toLowerCase()) ||
 origin.toLowerCase().includes(q.toLowerCase()) ||
 destination.toLowerCase().includes(q.toLowerCase())`. -/
def routeMatchesSearch (q : String) (r : Route) : Bool :=
  jsIncludes (jsToLower r.routeCode) (jsToLower q) ||
  jsIncludes (jsToLower r.origin) (jsToLower q) ||
  jsIncludes (jsToLower r.destination) (jsToLower q)

/-- The search stage of `filteredRoutes`. -/
def searchRoutes (routes : List Route) (q : String) : List Route :=
  if q == "" then routes else routes.filter (routeMatchesSearch q)

/-- The route filter choices: `'all' | 'assigned' | 'unassigned'`. -/
inductive RouteFilter where
  | all
  | assigned
  | unassigned
deriving DecidableEq, Repr

/-- The status stage of `filteredRoutes`: `route.assignedDriverId` truthiness
for `assigned`, falsiness for `unassigned`. -/
def filterRoutesByStatus (routes : List Route) : RouteFilter → List Route
  | .all => routes
  | .assigned => routes.filter fun r => !idFalsy r.assignedDriverId
  | .unassigned => routes.filter fun r => idFalsy r.assignedDriverId

/-- `filteredRoutes`: the search stage followed by the status stage, in the
source's order. -/
def filteredRoutes (routes : List Route) (q : String) (f : RouteFilter) :
    List Route :=
  filterRoutesByStatus (searchRoutes routes q) f

/-! ## Calendar availability (`getDriverAvailability`)

Instants are epoch milliseconds; `date-fns` `isSameDay` compares the calendar
day (floor division by the milliseconds in a day) and `isWithinInterval`
tests inclusive containment in `[start, end]`.  The calendar builds the slot
boundaries with `slotStart = new Date(day); slotStart.setHours(hour, 0, 0, 0)`
— midnight of the calendar day of `day` plus `hour` hours — and
`slotEnd` likewise at `hour + 1`; the generated time slots run from hour 6 to
hour 22, so no `setHours` day-rollover occurs. -/

def msPerHour : Int := 3600000

def msPerDay : Int := 86400000

/-- The calendar day of an instant. -/
def dayOf (t : Int) : Int := t.fdiv msPerDay

/-- `date-fns` `isSameDay`. -/
def isSameDay (a b : Int) : Bool := dayOf a == dayOf b

/-- `date-fns` `isWithinInterval` — both interval ends included. -/
def isWithinInterval (d start stop : Int) : Bool :=
  start ≤ d && d ≤ stop

/-- The start of the hour-long slot at `hour` on the calendar day of `day`. -/
def slotStartMs (day : Int) (hour : Nat) : Int :=
  dayOf day * msPerDay + hour * msPerHour

/-- The end of the hour-long slot at `hour` on the calendar day of `day`. -/
def slotEndMs (day : Int) (hour : Nat) : Int :=
  dayOf day * msPerDay + (hour + 1) * msPerHour

/-- The hours of the generated `timeSlots` (6 AM to 10 PM). -/
def timeSlotHours : List Nat := List.range' 6 17

/-- The predicate of the `routes.find(...)` scan inside
`getDriverAvailability`: the route is assigned to the driver, starts on the
queried calendar day, and the slot start falls within `[routeStart, routeEnd]`
or the route start falls within `[slotStart, slotEnd]`. -/
def routeMatchesSlot (driverId : String) (day : Int) (hour : Nat) (r : Route) :
    Bool :=
  r.assignedDriverId == some driverId &&
  isSameDay r.startTime day &&
  (isWithinInterval (slotStartMs day hour) r.startTime r.endTime ||
   isWithinInterval r.startTime (slotStartMs day hour) (slotEndMs day hour))

/-- The result of `getDriverAvailability`: the driver, a three-way status, and
the matched route when one was found. -/
structure DriverAvailability where
  driver : Driver
  status : DriverStatus
  route : Option Route
deriving DecidableEq, Repr

/-- `getDriverAvailability`: `on_leave` short-circuits; otherwise the first
route passing `routeMatchesSlot` (in store insertion order) yields `assigned`,
and no match yields `available`. -/
def getDriverAvailability (routes : List Route) (driver : Driver) (day : Int)
    (hour : Nat) : DriverAvailability :=
  if driver.status == .on_leave then
    { driver := driver, status := .on_leave, route := none }
  else
    match routes.find? (fun r => routeMatchesSlot driver.id day hour r) with
    | some r => { driver := driver, status := .assigned, route := some r }
    | none => { driver := driver, status := .available, route := none }

/-! ## Specification-side definitions

For the refinement-style comparison of the availability classification, the
slot-overlap test is restated following the specification's own words, to be
compared with `routeMatchesSlot`, which was translated from the source.  The
two differ in the second containment: the specification asks for the route
start inside the half-open `[slotStart, slotEnd)`, while `date-fns`
`isWithinInterval` includes both ends. -/

/-- The overlap test as the specification words it: "slot start falls within
[routeStart, routeEnd], OR route start falls within [slotStart, slotEnd)" —
the second interval half-open. -/
def specSlotOverlap (day : Int) (hour : Nat) (r : Route) : Bool :=
  (r.startTime ≤ slotStartMs day hour && slotStartMs day hour ≤ r.endTime) ||
  (slotStartMs day hour ≤ r.startTime && r.startTime < slotEndMs day hour)

/-- The specification's route-match condition for a (driver, day, slot) cell:
assigned to the driver, starting on the query day, and passing
`specSlotOverlap`. -/
def specRouteMatches (driverId : String) (day : Int) (hour : Nat) (r : Route) :
    Bool :=
  r.assignedDriverId == some driverId &&
  isSameDay r.startTime day &&
  specSlotOverlap day hour r

/-- Mathematical contiguous-substring occurrence, the semantic counterpart of
`includes`. -/
def occursIn (needle hay : List Char) : Prop :=
  ∃ l1 l2, hay = l1 ++ needle ++ l2

/-- The driver patch `{status: 'on_leave'}`. -/
def onLeavePatch : DriverPatch :=
  { name := none, phone := none, licenseId := none, status := some .on_leave }

/-- A route patch with no fields, `{}`. -/
def emptyRoutePatch : RoutePatch :=
  { routeCode := none, origin := none, destination := none, startTime := none,
    endTime := none, assignedDriverId := none }

/-! ## Concrete sample data

Sample entities used to instantiate the theorems; instants are placed on
calendar day 0 (so 08:00 is `28800000` ms, etc.). -/

/-- A driver who is not on leave. -/
def jane : Driver :=
  { id := "d1", name := "Jane Doe", phone := "+15551234567",
    licenseId := "LIC123", status := .available, createdAt := 0, updatedAt := 0 }

/-- The same driver on leave. -/
def leaveDriver : Driver :=
  { id := "d1", name := "Jane Doe", phone := "+15551234567",
    licenseId := "LIC123", status := .on_leave, createdAt := 0, updatedAt := 0 }

/-- A second driver, whose phone contains letters and whose other searchable
fields do not contain the sample query. -/
def casey : Driver :=
  { id := "d2", name := "zz", phone := "AB12", licenseId := "zzz",
    status := .available, createdAt := 0, updatedAt := 0 }

/-- The input corresponding to `jane`. -/
def janeInput : DriverInput :=
  { name := "Jane Doe", phone := "+15551234567", licenseId := "LIC123",
    status := .available }

/-- A route 08:00–10:00 on day 0, assigned to driver `"d1"`. -/
def r8to10 : Route :=
  { id := "r1", routeCode := "RT001", origin := "A", destination := "B",
    startTime := 28800000, endTime := 36000000, assignedDriverId := some "d1",
    createdAt := 0, updatedAt := 0 }

/-- A route 10:00–12:00 on day 0, assigned to driver `"d1"`. -/
def r10to12 : Route :=
  { id := "r2", routeCode := "RT002", origin := "C", destination := "D",
    startTime := 36000000, endTime := 43200000, assignedDriverId := some "d1",
    createdAt := 0, updatedAt := 0 }

/-- A route assigned to an id that belongs to no current driver — a dangling
reference. -/
def ghostRoute : Route :=
  { id := "r9", routeCode := "RT009", origin := "E", destination := "F",
    startTime := 0, endTime := 3600000, assignedDriverId := some "ghost",
    createdAt := 0, updatedAt := 0 }

/-- A route with no assigned driver. -/
def unassignedRoute : Route :=
  { id := "r3", routeCode := "RT003", origin := "G", destination := "H",
    startTime := 0, endTime := 3600000, assignedDriverId := none,
    createdAt := 0, updatedAt := 0 }

/-! ## Helper lemmas -/

/-- `startsWith` agrees with the existence of a completing suffix. -/
theorem startsWith_iff (needle hay : List Char) :
    startsWith needle hay = true ↔ ∃ t, hay = needle ++ t := by
  induction needle generalizing hay with
  | nil =>
    simp only [startsWith, List.nil_append, true_iff]
    exact ⟨hay, rfl⟩
  | cons a as ih =>
    cases hay with
    | nil =>
      simp [startsWith]
    | cons b bs =>
      simp only [startsWith, Bool.and_eq_true, beq_iff_eq, ih, List.cons_append,
        List.cons.injEq]
      constructor
      · rintro ⟨rfl, t, rfl⟩
        exact ⟨t, rfl, rfl⟩
      · rintro ⟨t, rfl, rfl⟩
        exact ⟨rfl, t, rfl⟩

/-- `includes` agrees with contiguous-substring occurrence. -/
theorem includes_iff (needle hay : List Char) :
    includes needle hay = true ↔ occursIn needle hay := by
  induction hay with
  | nil =>
    simp only [includes, startsWith_iff, occursIn]
    constructor
    · rintro ⟨t, ht⟩
      exact ⟨[], t, ht⟩
    · rintro ⟨l1, l2, h⟩
      rcases List.append_eq_nil.mp h.symm with ⟨h1, h3⟩
      rcases List.append_eq_nil.mp h1 with ⟨h2, h4⟩
      exact ⟨[], by simp [h4]⟩
  | cons c t ih =>
    simp only [includes, Bool.or_eq_true, startsWith_iff, ih, occursIn]
    constructor
    · rintro (⟨t2, heq⟩ | ⟨l1, l2, rfl⟩)
      · exact ⟨[], t2, by simpa using heq⟩
      · exact ⟨c :: l1, l2, rfl⟩
    · rintro ⟨l1, l2, heq⟩
      cases l1 with
      | nil =>
        exact Or.inl ⟨l2, by simpa using heq⟩
      | cons x xs =>
        rw [List.cons_append, List.cons_append] at heq
        rcases List.cons.injEq .. ▸ heq with ⟨rfl, rfl⟩
        exact Or.inr ⟨xs, l2, by simp⟩

/-- Unfolding of `routeMatchesSlot` into its propositional form. -/
theorem routeMatchesSlot_iff (driverId : String) (day : Int) (hour : Nat)
    (r : Route) :
    routeMatchesSlot driverId day hour r = true ↔
      r.assignedDriverId = some driverId ∧
      dayOf r.startTime = dayOf day ∧
      ((r.startTime ≤ slotStartMs day hour ∧ slotStartMs day hour ≤ r.endTime) ∨
       (slotStartMs day hour ≤ r.startTime ∧ r.startTime ≤ slotEndMs day hour)) := by
  simp [routeMatchesSlot, isSameDay, isWithinInterval, Bool.and_eq_true,
    Bool.or_eq_true, decide_eq_true_iff, and_assoc]

/-- In `getDriverAvailability`, a driver who is not on leave takes the
route-scan branch. -/
theorem getDriverAvailability_not_on_leave (routes : List Route)
    (driver : Driver) (day : Int) (hour : Nat)
    (h : driver.status ≠ DriverStatus.on_leave) :
    getDriverAvailability routes driver day hour =
      match routes.find? (fun r => routeMatchesSlot driver.id day hour r) with
      | some r => { driver := driver, status := .assigned, route := some r }
      | none => { driver := driver, status := .available, route := none } := by
  have hb : (driver.status == DriverStatus.on_leave) = false := by
    simpa using h
  simp only [getDriverAvailability, hb, Bool.false_eq_true, if_false]

/-! ## Claim theorems -/

/-- C2: for every driver whose status is `on_leave`, the availability
classification for every day and every hourly slot is `on_leave` (with no
attached route), regardless of any routes referencing that driver. -/
theorem on_leave_always_on_leave (routes : List Route) (driver : Driver)
    (day : Int) (hour : Nat) (h : driver.status = DriverStatus.on_leave) :
    getDriverAvailability routes driver day hour =
      { driver := driver, status := .on_leave, route := none } := by
  simp [getDriverAvailability, h]

/-- Witness for C2: an on-leave driver with a route referencing its id, at the
route's own day and hour, is still classified `on_leave`. -/
theorem on_leave_always_on_leave_witness :
    getDriverAvailability [r8to10] leaveDriver 0 9 =
      { driver := leaveDriver, status := .on_leave, route := none } :=
  on_leave_always_on_leave [r8to10] leaveDriver 0 9 rfl

/-- C7: for an id present in neither collection, `updateDriver`,
`deleteDriver`, `updateRoute` and `deleteRoute` leave the store state
completely unchanged; each action is a total function on the state, so no
error is signalled. -/
theorem missing_id_noop (drivers : List Driver) (routes : List Route)
    (id : String) (pd : DriverPatch) (pr : RoutePatch) (now : Int)
    (hd : ∀ d ∈ drivers, d.id ≠ id) (hr : ∀ r ∈ routes, r.id ≠ id) :
    updateDriver drivers id pd now = drivers ∧
    deleteDriver drivers id = drivers ∧
    updateRoute routes id pr now = routes ∧
    deleteRoute routes id = routes := by
  refine ⟨?_, ?_, ?_, ?_⟩
  · calc drivers.map (fun d => if d.id == id then applyDriverPatch d pd now else d)
        = drivers.map (fun d => d) :=
          List.map_congr_left fun d hmem => by simp [hd d hmem]
      _ = drivers := List.map_id'' (fun _ => rfl) drivers
  · exact List.filter_eq_self.mpr fun d hmem => by simp [hd d hmem]
  · calc routes.map (fun r => if r.id == id then applyRoutePatch r pr now else r)
        = routes.map (fun r => r) :=
          List.map_congr_left fun r hmem => by simp [hr r hmem]
      _ = routes := List.map_id'' (fun _ => rfl) routes
  · exact List.filter_eq_self.mpr fun r hmem => by simp [hr r hmem]

/-- Witness for C7: on concrete one-element stores and an id matching neither
entity, all four mutations return the state unchanged. -/
theorem missing_id_noop_witness :
    updateDriver [jane] "nope" onLeavePatch 5 = [jane] ∧
    deleteDriver [jane] "nope" = [jane] ∧
    updateRoute [r8to10] "nope" emptyRoutePatch 5 = [r8to10] ∧
    deleteRoute [r8to10] "nope" = [r8to10] :=
  missing_id_noop [jane] [r8to10] "nope" onLeavePatch emptyRoutePatch 5
    (by decide) (by decide)

/-- C8: deleting a present driver id makes a subsequent `getDriver` return
`none`, removes every driver with that id from `getDriversByStatus` for every
status, and `deleteDriver` is idempotent. -/
theorem deleteDriver_removes (drivers : List Driver) (id : String)
    (hmem : (getDriver drivers id).isSome = true) :
    getDriver (deleteDriver drivers id) id = none ∧
    (∀ s : DriverStatus, ∀ d ∈ getDriversByStatus (deleteDriver drivers id) s,
      d.id ≠ id) ∧
    deleteDriver (deleteDriver drivers id) id = deleteDriver drivers id := by
  refine ⟨?_, ?_, ?_⟩
  · exact List.find?_eq_none.mpr fun d hd => by
      have := (List.mem_filter.mp hd).2
      simp only [bne_iff_ne, ne_eq] at this
      simp [this]
  · intro s d hd
    have := (List.mem_filter.mp (List.mem_filter.mp hd).1).2
    simpa only [bne_iff_ne, ne_eq] using this
  · unfold deleteDriver
    rw [List.filter_filter]
    exact List.filter_congr fun d _ => Bool.and_self _

/-- Witness for C8: deleting `"d1"` from the one-driver store empties every
read-side view and a second delete changes nothing. -/
theorem deleteDriver_removes_witness :
    getDriver (deleteDriver [jane] "d1") "d1" = none ∧
    (∀ s : DriverStatus, ∀ d ∈ getDriversByStatus (deleteDriver [jane] "d1") s,
      d.id ≠ "d1") ∧
    deleteDriver (deleteDriver [jane] "d1") "d1" = deleteDriver [jane] "d1" :=
  deleteDriver_removes [jane] "d1" (by decide)

/-- Pushing a further filter under the driver search stage. -/
theorem searchDrivers_filter_comm (drivers : List Driver) (q : String)
    (p : Driver → Bool) :
    (searchDrivers drivers q).filter p = searchDrivers (drivers.filter p) q := by
  unfold searchDrivers
  rcases eq_or_ne q "" with rfl | hq
  · simp
  · rw [if_neg (by simpa using hq), if_neg (by simpa using hq)]
    exact List.filter_comm p (driverMatchesSearch q) drivers

/-- Pushing a further filter under the route search stage. -/
theorem searchRoutes_filter_comm (routes : List Route) (q : String)
    (p : Route → Bool) :
    (searchRoutes routes q).filter p = searchRoutes (routes.filter p) q := by
  unfold searchRoutes
  rcases eq_or_ne q "" with rfl | hq
  · simp
  · rw [if_neg (by simpa using hq), if_neg (by simpa using hq)]
    exact List.filter_comm p (routeMatchesSearch q) routes

/-- C9: for every snapshot, search string and status filter, text search
followed by the status filter (the source's order in `filteredDrivers` /
`filteredRoutes`) yields the same list as the status filter followed by the
text search, for drivers and for routes alike. -/
theorem search_status_filter_commute (drivers : List Driver)
    (routes : List Route) (qd qr : String) (fd : DriverFilter)
    (fr : RouteFilter) :
    filteredDrivers drivers qd fd =
      searchDrivers (filterDriversByStatus drivers fd) qd ∧
    filteredRoutes routes qr fr =
      searchRoutes (filterRoutesByStatus routes fr) qr := by
  constructor
  · cases fd <;>
      simp [filteredDrivers, filterDriversByStatus, searchDrivers_filter_comm]
  · cases fr <;>
      simp [filteredRoutes, filterRoutesByStatus, searchRoutes_filter_comm]

/-- C5: adding a driver with a fresh id and reading it back by that id yields
a driver whose `name`, `phone`, `licenseId` and `status` equal the input's
fields and whose `createdAt` equals its `updatedAt`. -/
theorem addDriver_then_getDriver (drivers : List Driver) (input : DriverInput)
    (newId : String) (now : Int) (hfresh : ∀ d ∈ drivers, d.id ≠ newId) :
    ∃ d, getDriver (addDriver drivers input newId now) newId = some d ∧
      d.name = input.name ∧ d.phone = input.phone ∧
      d.licenseId = input.licenseId ∧ d.status = input.status ∧
      d.createdAt = d.updatedAt := by
  refine ⟨{ id := newId, name := input.name, phone := input.phone,
            licenseId := input.licenseId, status := input.status,
            createdAt := now, updatedAt := now }, ?_, rfl, rfl, rfl, rfl, rfl⟩
  unfold getDriver addDriver
  rw [List.find?_append]
  have h1 : drivers.find? (fun d => d.id == newId) = none :=
    List.find?_eq_none.mpr fun d hd => by simp [hfresh d hd]
  rw [h1]
  simp

/-- Witness for C5: adding Jane's data to the empty store at instant 42 and
reading id `"d1"` back returns her fields with equal timestamps. -/
theorem addDriver_then_getDriver_witness :
    ∃ d, getDriver (addDriver [] janeInput "d1" 42) "d1" = some d ∧
      d.name = janeInput.name ∧ d.phone = janeInput.phone ∧
      d.licenseId = janeInput.licenseId ∧ d.status = janeInput.status ∧
      d.createdAt = d.updatedAt :=
  addDriver_then_getDriver [] janeInput "d1" 42 (by simp)

/-- C6: `updateDriver(id, {status: 'on_leave'})` rewrites, position by
position, exactly the entries whose id matches — setting only `status` and
`updatedAt` and keeping `id`, `name`, `phone`, `licenseId`, `createdAt` —
and leaves every other entry unchanged in place; under a monotone clock the
matching entries' `updatedAt` does not decrease. -/
theorem updateDriver_on_leave_frame (drivers : List Driver) (id : String)
    (now : Int) (hclock : ∀ d ∈ drivers, d.id = id → d.updatedAt ≤ now) :
    (∀ i : Nat,
      (updateDriver drivers id onLeavePatch now)[i]? =
        (drivers[i]?).map fun d =>
          if d.id = id then
            { d with status := DriverStatus.on_leave, updatedAt := now }
          else d) ∧
    (∀ e ∈ updateDriver drivers id onLeavePatch now, e.id = id →
      ∀ d ∈ drivers, d.id = id → d.updatedAt ≤ e.updatedAt) := by
  have hfun : (fun d => if d.id == id then applyDriverPatch d onLeavePatch now else d)
      = fun d => if d.id = id then
          { d with status := DriverStatus.on_leave, updatedAt := now }
        else d := by
    funext d
    simp only [beq_iff_eq]
    rfl
  constructor
  · intro i
    unfold updateDriver
    rw [hfun, List.getElem?_map]
  · intro e he heid d hd hdid
    unfold updateDriver at he
    rw [hfun] at he
    rcases List.mem_map.mp he with ⟨d0, hd0, rfl⟩
    by_cases h0 : d0.id = id
    · rw [if_pos h0]
      exact hclock d hd hdid
    · rw [if_neg h0] at heid
      exact absurd heid h0

/-- Witness for C6: updating `"d1"` to on-leave in a two-driver store at
instant 100 rewrites only Jane's entry, in place. -/
theorem updateDriver_on_leave_frame_witness :
    (∀ i : Nat,
      (updateDriver [jane, casey] "d1" onLeavePatch 100)[i]? =
        (([jane, casey] : List Driver)[i]?).map fun d =>
          if d.id = "d1" then
            { d with status := DriverStatus.on_leave, updatedAt := 100 }
          else d) ∧
    (∀ e ∈ updateDriver [jane, casey] "d1" onLeavePatch 100, e.id = "d1" →
      ∀ d ∈ ([jane, casey] : List Driver), d.id = "d1" →
        d.updatedAt ≤ e.updatedAt) :=
  updateDriver_on_leave_frame [jane, casey] "d1" 100 (by decide)

/-- For a driver not on leave, a failing route scan classifies `available`. -/
theorem getDriverAvailability_eq_of_find_none (routes : List Route)
    (driver : Driver) (day : Int) (hour : Nat)
    (h : driver.status ≠ DriverStatus.on_leave)
    (hfind : routes.find? (fun r => routeMatchesSlot driver.id day hour r) = none) :
    getDriverAvailability routes driver day hour =
      { driver := driver, status := .available, route := none } := by
  rw [getDriverAvailability_not_on_leave routes driver day hour h, hfind]

/-- For a driver not on leave, a successful route scan classifies `assigned`
with the found route attached. -/
theorem getDriverAvailability_eq_of_find_some (routes : List Route)
    (driver : Driver) (day : Int) (hour : Nat) (r : Route)
    (h : driver.status ≠ DriverStatus.on_leave)
    (hfind : routes.find? (fun x => routeMatchesSlot driver.id day hour x) = some r) :
    getDriverAvailability routes driver day hour =
      { driver := driver, status := .assigned, route := some r } := by
  rw [getDriverAvailability_not_on_leave routes driver day hour h, hfind]

/-- Counterexample to C1: a route starting exactly at the slot end
(10:00–12:00 against the 9-o'clock slot) passes none of the checks of the
claim's half-open overlap test, yet `getDriverAvailability` classifies the
cell `assigned`, because `isWithinInterval` also includes the `slotEnd`
endpoint. -/
theorem availability_half_open_counterexample :
    jane.status ≠ DriverStatus.on_leave ∧
    (∀ r ∈ [r10to12], specRouteMatches jane.id 0 9 r = false) ∧
    (getDriverAvailability [r10to12] jane 0 9).status = DriverStatus.assigned := by
  decide

/-- C1 (amended): for every driver not on leave, day and hourly slot, the
classification is `assigned` exactly when some route is assigned to the
driver, starts on the query day, and either the slot start falls within
[routeStart, routeEnd] or the route start falls within the closed interval
[slotStart, slotEnd]; otherwise it is `available`. -/
theorem availability_assigned_iff (routes : List Route) (driver : Driver)
    (day : Int) (hour : Nat) (h : driver.status ≠ DriverStatus.on_leave) :
    ((getDriverAvailability routes driver day hour).status = .assigned ↔
      ∃ r ∈ routes, r.assignedDriverId = some driver.id ∧
        dayOf r.startTime = dayOf day ∧
        ((r.startTime ≤ slotStartMs day hour ∧ slotStartMs day hour ≤ r.endTime) ∨
         (slotStartMs day hour ≤ r.startTime ∧ r.startTime ≤ slotEndMs day hour))) ∧
    ((getDriverAvailability routes driver day hour).status ≠ .assigned →
      (getDriverAvailability routes driver day hour).status = .available) := by
  cases hfind : routes.find? (fun r => routeMatchesSlot driver.id day hour r) with
  | none =>
    rw [getDriverAvailability_eq_of_find_none routes driver day hour h hfind]
    rw [List.find?_eq_none] at hfind
    refine ⟨⟨fun habs => absurd habs (by simp), ?_⟩, fun _ => rfl⟩
    rintro ⟨r, hr, hprop⟩
    exact absurd ((routeMatchesSlot_iff driver.id day hour r).mpr hprop)
      (hfind r hr)
  | some r =>
    rw [getDriverAvailability_eq_of_find_some routes driver day hour r h hfind]
    have hrmem : r ∈ routes := List.mem_of_find?_eq_some hfind
    have hrp : routeMatchesSlot driver.id day hour r = true :=
      List.find?_some hfind
    refine ⟨⟨fun _ => ?_, fun _ => rfl⟩, fun hne => absurd rfl hne⟩
    exact ⟨r, hrmem, (routeMatchesSlot_iff driver.id day hour r).mp hrp⟩

/-- Witness for C1 (amended), on the spec's own scenario: a route 08:00–10:00
on day 0 makes the hour-9 slot `assigned` and the hour-14 slot `available`. -/
theorem availability_assigned_iff_witness :
    (getDriverAvailability [r8to10] jane 0 9).status = DriverStatus.assigned ∧
    (getDriverAvailability [r8to10] jane 0 14).status = DriverStatus.available := by
  constructor
  · exact (availability_assigned_iff [r8to10] jane 0 9 (by decide)).1.mpr
      (by decide)
  · exact (availability_assigned_iff [r8to10] jane 0 14 (by decide)).2
      (by decide)

/-- C10: when the store holds several routes that satisfy the day-and-slot
test for one (driver, day, hour) cell, the classification is `assigned` and
the attached route is the earliest-inserted match — the first matching
element in store order, whatever comes after it. -/
theorem availability_first_match (pre post : List Route) (r : Route)
    (driver : Driver) (day : Int) (hour : Nat)
    (h : driver.status ≠ DriverStatus.on_leave)
    (hr : routeMatchesSlot driver.id day hour r = true)
    (hpre : ∀ p ∈ pre, routeMatchesSlot driver.id day hour p = false) :
    getDriverAvailability (pre ++ r :: post) driver day hour =
      { driver := driver, status := .assigned, route := some r } := by
  have hfind : (pre ++ r :: post).find?
      (fun x => routeMatchesSlot driver.id day hour x) = some r := by
    rw [List.find?_append]
    have h1 : pre.find? (fun x => routeMatchesSlot driver.id day hour x) = none :=
      List.find?_eq_none.mpr fun x hx => by simp [hpre x hx]
    rw [h1, Option.none_or]
    exact List.find?_cons_of_pos post hr
  exact getDriverAvailability_eq_of_find_some _ driver day hour r h hfind

/-- Witness for C10: the routes 08:00–10:00 and 10:00–12:00 both match the
hour-9 slot for Jane; the classification attaches the first one and is
`assigned`. -/
theorem availability_first_match_witness :
    getDriverAvailability [r8to10, r10to12] jane 0 9 =
      { driver := jane, status := .assigned, route := some r8to10 } :=
  availability_first_match [] [r10to12] r8to10 jane 0 9 (by decide) (by decide)
    (by decide)

/-- Counterexample to C3: the query `"ab12"` differs only in letter case from
a substring of `casey`'s phone `"AB12"` (their lower-casings agree), yet the
driver search returns no match, because the phone field is compared
case-sensitively. -/
theorem driver_search_phone_case_counterexample :
    jsIncludes (jsToLower casey.phone) (jsToLower "ab12") = true ∧
    casey ∉ searchDrivers [casey] "ab12" := by
  decide

/-- C3 (amended): a driver is in the search result exactly when it is in the
snapshot and the query occurs as a substring of `name` or `licenseId`
compared case-insensitively, or of `phone` compared case-sensitively. -/
theorem driver_search_membership (drivers : List Driver) (q : String)
    (d : Driver) :
    d ∈ searchDrivers drivers q ↔
      d ∈ drivers ∧
      (occursIn (jsToLower q).toList (jsToLower d.name).toList ∨
       occursIn (jsToLower q).toList (jsToLower d.licenseId).toList ∨
       occursIn q.toList d.phone.toList) := by
  unfold searchDrivers
  rcases eq_or_ne q "" with rfl | hq
  · rw [if_pos (by decide)]
    constructor
    · intro hd
      refine ⟨hd, Or.inl ⟨[], (jsToLower d.name).toList, ?_⟩⟩
      have hnil : (jsToLower "").toList = ([] : List Char) := rfl
      have hnil2 : (jsToLower "").data = ([] : List Char) := rfl
      simp [hnil, hnil2]
    · rintro ⟨hd, _⟩
      exact hd
  · rw [if_neg (by simpa using hq), List.mem_filter]
    simp only [driverMatchesSearch, jsIncludes, Bool.or_eq_true, includes_iff,
      or_assoc]

/-- Counterexample to C4: a route whose `assignedDriverId` dangles (references
no current driver) is excluded from `getUnassignedRoutes`, yet lies in the
complement of the union of `getRoutesByDriver` over the current driver ids —
so the claimed set equality fails on such states. -/
theorem unassigned_complement_counterexample :
    ghostRoute ∈ [ghostRoute] ∧
    ghostRoute ∉ getUnassignedRoutes [ghostRoute] ∧
    (∀ d ∈ ["d1"], ghostRoute ∉ getRoutesByDriver [ghostRoute] d) := by
  decide

/-- C4 (amended): when every present `assignedDriverId` is nonempty and
belongs to the current driver ids (no dangling and no empty-string
references), `getUnassignedRoutes` returns exactly the routes with no
`assignedDriverId`, and this set is the complement, within the route
collection, of the union of `getRoutesByDriver` over the current driver
ids. -/
theorem unassigned_routes_spec (routes : List Route) (driverIds : List String)
    (hwf : ∀ r ∈ routes, ∀ s, r.assignedDriverId = some s →
      s ≠ "" ∧ s ∈ driverIds) :
    (∀ r, r ∈ getUnassignedRoutes routes ↔
      r ∈ routes ∧ r.assignedDriverId = none) ∧
    (∀ r, r ∈ getUnassignedRoutes routes ↔
      r ∈ routes ∧ ∀ d ∈ driverIds, r ∉ getRoutesByDriver routes d) := by
  have hmain : ∀ r ∈ routes,
      (idFalsy r.assignedDriverId = true ↔ r.assignedDriverId = none) := by
    intro r hr
    cases hid : r.assignedDriverId with
    | none => simp [idFalsy]
    | some s =>
      have hs := (hwf r hr s hid).1
      simp [idFalsy, hs]
  constructor
  · intro r
    rw [getUnassignedRoutes, List.mem_filter]
    constructor
    · rintro ⟨h1, h2⟩
      exact ⟨h1, (hmain r h1).mp h2⟩
    · rintro ⟨h1, h2⟩
      exact ⟨h1, (hmain r h1).mpr h2⟩
  · intro r
    rw [getUnassignedRoutes, List.mem_filter]
    constructor
    · rintro ⟨h1, h2⟩
      refine ⟨h1, fun d _ hcon => ?_⟩
      have h3 := (List.mem_filter.mp hcon).2
      have h4 : r.assignedDriverId = some d := by simpa using h3
      rw [(hmain r h1).mp h2] at h4
      exact Option.noConfusion h4
    · rintro ⟨h1, h2⟩
      refine ⟨h1, ?_⟩
      cases hid : r.assignedDriverId with
      | none => simp [idFalsy]
      | some s =>
        rcases hwf r h1 s hid with ⟨_, hs2⟩
        exact absurd (List.mem_filter.mpr ⟨h1, by simp [hid]⟩) (h2 s hs2)

/-- Witness for C4 (amended): on a store with one assigned and one unassigned
route and the single current driver id `"d1"`, both characterisations hold. -/
theorem unassigned_routes_spec_witness :
    (∀ r, r ∈ getUnassignedRoutes [r8to10, unassignedRoute] ↔
      r ∈ [r8to10, unassignedRoute] ∧ r.assignedDriverId = none) ∧
    (∀ r, r ∈ getUnassignedRoutes [r8to10, unassignedRoute] ↔
      r ∈ [r8to10, unassignedRoute] ∧
        ∀ d ∈ ["d1"], r ∉ getRoutesByDriver [r8to10, unassignedRoute] d) :=
  unassigned_routes_spec [r8to10, unassignedRoute] ["d1"] (by decide)

end Drb
